import Mathlib

/-!
Verification of the avatar-cloud client orchestrator.

Shallow embedding of the core logic of `src/frontend/app.js`
(`RollUpCaptionManager` and the turn/interrupt state machine of
`GeminiLiveClient`), together with theorems settling the frozen claims
about the natural-language specification.

Conventions of the embedding:
* JavaScript strings are Lean `String`s; word tokenization mirrors
  `text.trim().split(/\s+/).filter(w => w.length > 0)`.
* The mutable fields of `GeminiLiveClient` that the interrupt/turn logic
  reads or writes become fields of an explicit `ClientState` record;
  each handler is a pure function `ClientState → ClientState × List Effect`,
  where `Effect` records the externally visible actions the handler
  performs (WebSocket sends, playback-sink stop, avatar transitions,
  timer cancellations).  `setTimeout` handles are modelled by an explicit
  list of pending timers plus a fresh-id counter, so that cancellation
  and duplicate-timer questions are meaningful.
* Audio frames are identified by natural numbers (their payload is opaque
  to the orchestrator).
* The oscillation driver phase-boundary positions are modelled over `ℚ`
  (the code force-sets `video.currentTime` to the exact computed target at
  every phase boundary, so boundary positions obey an exact recurrence).
-/

namespace AvatarCloud

/-! ## Caption manager (`RollUpCaptionManager`, app.js lines 13–165) -/

/-- Split a character list at every whitespace character, keeping the
(possibly empty) segments between cuts — the semantics of JavaScript
`split` against single whitespace characters; the empty segments produced
by leading/trailing/adjacent whitespace are removed by the length filter
in `toWords`, exactly as in the source. -/
def splitWS : List Char → List Char → List (List Char)
  | [], acc => [acc.reverse]
  | c :: cs, acc =>
      if c.isWhitespace then acc.reverse :: splitWS cs []
      else splitWS cs (c :: acc)

/-- Embedding of `text.trim().split(/\s+/).filter(w => w.length > 0)` from
`extractNewWords` (app.js lines 67–68): the maximal non-whitespace runs
of the text.  (`trim` plus splitting on whitespace *runs* plus the
non-empty filter coincides with splitting on single whitespace
characters plus the same filter.) -/
def toWords (s : String) : List String :=
  ((splitWS s.data []).map (fun cs => String.mk cs)).filter
    (fun w => 0 < w.length)

/-- Embedding of `RollUpCaptionManager.extractNewWords(currentText, previousText, isFinal)`
(app.js lines 66–93): if the current text has no more words than the
previous one, nothing is extracted; otherwise the words from index
`previousWords.length` up to (but excluding) the last word are extracted,
and the last word is additionally extracted when `isFinal` is set. -/
def extractNewWords (currentText previousText : String) (isFinal : Bool) :
    List String :=
  let currentWords := toWords currentText
  let previousWords := toWords previousText
  if currentWords.length ≤ previousWords.length then
    []
  else
    let startIndex := previousWords.length
    let newCompleteWords := (currentWords.drop startIndex).dropLast
    if isFinal ∧ 0 < currentWords.length then
      newCompleteWords ++ [currentWords.getLastD ""]
    else
      newCompleteWords

/-- The buffering-relevant mutable state of `RollUpCaptionManager`
(app.js lines 26–35; display pacing fields omitted — the claims under
verification concern the word buffer and the previously-seen-text
tracker). -/
structure CaptionState where
  bufferedWords : List String
  lastProcessedText : String
  isFinalBuffered : Bool
  deriving DecidableEq, Repr

/-- Constructor state of `RollUpCaptionManager` (app.js lines 27–29). -/
def CaptionState.init : CaptionState :=
  { bufferedWords := [], lastProcessedText := "", isFinalBuffered := false }

/-- Embedding of `RollUpCaptionManager.addCaption(text, isFinal)` (app.js lines 39–63):
empty/whitespace text is ignored; otherwise the newly observed words are
appended to the buffer and the previously-seen-text tracker is overwritten
with the incoming cumulative text. -/
def addCaption (text : String) (isFinal : Bool) (s : CaptionState) :
    CaptionState :=
  -- `if (!text || text.trim().length === 0) return;` — the text is skipped
  -- exactly when every character is whitespace (equivalently, it trims to
  -- the empty string).
  if text.data.all (fun c => c.isWhitespace) then s
  else
    { bufferedWords :=
        s.bufferedWords ++ extractNewWords text s.lastProcessedText isFinal
      lastProcessedText := text
      isFinalBuffered := isFinal }

/-- Embedding of `RollUpCaptionManager.clear()` (app.js lines 145–164), restricted to the
buffering fields. -/
def captionClear (_s : CaptionState) : CaptionState :=
  { bufferedWords := [], lastProcessedText := "", isFinalBuffered := false }

/-- Fold a sequence of `addCaption` calls over a caption state. -/
def addCaptions (frs : List (String × Bool)) (s : CaptionState) :
    CaptionState :=
  frs.foldl (fun st fr => addCaption fr.1 fr.2 st) s

/-! ## Turn orchestrator (`GeminiLiveClient`, app.js lines 167–1961)

The avatar visual states (`currentAvatarState` strings in the source). -/

inductive AvatarState where
  | idle
  | listening
  | speaking
  | dancing
  | goodbye
  deriving DecidableEq, Repr

/-- The two actions ever scheduled into `this.interruptTimeout`:
`endCooldownPeriod` (local barge-in path, app.js lines 750 and 800) and
`clearInterruptState` (remote interrupt path, app.js line 1027). -/
inductive TimerAction where
  | endCooldown
  | clearInterrupt
  deriving DecidableEq, Repr

/-- A pending `setTimeout` handle: its identity, its delay in
milliseconds, and the callback it will run. -/
structure Timer where
  id : Nat
  delayMs : Nat
  action : TimerAction
  deriving DecidableEq, Repr

/-- Externally visible actions performed by a handler: WebSocket sends,
the playback-sink stop/discard call, barge-in monitor stop, avatar
transitions (old state, new state), and the sentence-break video pause. -/
inductive Effect where
  | sendAudio (frame : Nat)
  | sendInterrupt
  | playerStop
  | stopMonitoring
  | avatarChange (a b : AvatarState)
  | pauseVideo
  deriving DecidableEq, Repr

/-- The mutable fields of `GeminiLiveClient` read or written by the
turn/interrupt logic (app.js lines 168–247), with `setTimeout` handles
made explicit as a pending-timer list plus a fresh-id counter.
* `wsOpen` models `this.ws && this.ws.readyState === WebSocket.OPEN`;
* `hasAudioPlayer` / `hasAudioRecorder` model the non-nullness of
  `this.audioPlayer` / `this.audioRecorder`;
* `videoReady` models `this.videoSources` being loaded (the guard at the
  top of `setAvatarState`);
* `playerQueue` models `this.audioPlayer.sources.length`, the number of
  queued playback chunks;
* audio frames are opaque and identified by naturals. -/
structure ClientState where
  wsOpen : Bool
  hasAudioPlayer : Bool
  hasAudioRecorder : Bool
  videoReady : Bool
  isDancing : Bool
  isInterrupted : Bool
  isInCooldown : Bool
  pendingTurnComplete : Bool
  interruptCooldownMs : Nat
  lastInterruptTime : Nat
  audioBufferDuringCooldown : List Nat
  interruptTimeout : Option Nat
  pendingTimers : List Timer
  nextTimerId : Nat
  avatar : AvatarState
  playerQueue : Nat
  deriving DecidableEq, Repr

/-- Constructor state of `GeminiLiveClient` (app.js lines 168–247). -/
def initClient : ClientState :=
  { wsOpen := false
    hasAudioPlayer := false
    hasAudioRecorder := false
    videoReady := false
    isDancing := false
    isInterrupted := false
    isInCooldown := false
    pendingTurnComplete := false
    interruptCooldownMs := 2000
    lastInterruptTime := 0
    audioBufferDuringCooldown := []
    interruptTimeout := none
    pendingTimers := []
    nextTimerId := 0
    avatar := .idle
    playerQueue := 0 }

/-- Embedding of `setTimeout(cb, delay)`: registers a fresh pending timer and returns
its handle. -/
def setTimeout (act : TimerAction) (delay : Nat) (s : ClientState) :
    Nat × ClientState :=
  (s.nextTimerId,
   { s with
       pendingTimers := s.pendingTimers ++ [⟨s.nextTimerId, delay, act⟩]
       nextTimerId := s.nextTimerId + 1 })

/-- Embedding of `clearTimeout(handle)`: deregisters the pending timer with that
handle (a no-op if it already fired or was cancelled). -/
def clearTimeout (i : Nat) (s : ClientState) : ClientState :=
  { s with pendingTimers := s.pendingTimers.filter (fun t => t.id != i) }

/-- Embedding of `if (this.interruptTimeout) clearTimeout(this.interruptTimeout)`:
cancel the stored interrupt timer when one is registered. -/
def clearStoredTimeout (s : ClientState) : ClientState :=
  match s.interruptTimeout with
  | some i => clearTimeout i s
  | none => s

/-- Embedding of `GeminiLiveClient.setAvatarState(state)` (app.js lines 1807–1942),
restricted to the fields of the model: a no-op when `videoSources` is
missing or when the target equals the current state; otherwise the
current state changes and, for `idle`/`listening`, barge-in monitoring
stops.  (Oscillation start/stop is modelled separately, see
`boundaryPos`.) -/
def setAvatarState (st : AvatarState) (s : ClientState) :
    ClientState × List Effect :=
  if !s.videoReady then (s, [])
  else if s.avatar = st then (s, [])
  else
    let monitorEffs :=
      if (st = .idle ∨ st = .listening) ∧ s.hasAudioRecorder then
        [Effect.stopMonitoring]
      else []
    ({ s with avatar := st }, [Effect.avatarChange s.avatar st] ++ monitorEffs)

/-- Embedding of `GeminiLiveClient.forceCleanupInterrupt()` (app.js lines 849–869). -/
def forceCleanupInterrupt (s : ClientState) : ClientState × List Effect :=
  let s1 := { clearStoredTimeout s with interruptTimeout := none }
  let e1 := if s1.hasAudioRecorder then [Effect.stopMonitoring] else []
  let e2 := if s1.hasAudioPlayer then [Effect.playerStop] else []
  ({ s1 with
       pendingTurnComplete := false
       isInCooldown := false
       audioBufferDuringCooldown := [] },
   e1 ++ e2)

/-- Embedding of `GeminiLiveClient.handleLocalBargeIn()` (app.js lines 734–801).
If already in cooldown the existing timer is cancelled and a fresh
cooldown timer is started (debouncing); otherwise the client enters the
interrupted + cooldown state: the buffer is reset, one `interrupt` frame
is sent when the socket is open, monitoring and playback stop, the avatar
goes idle, and the cooldown timer is started. -/
def handleLocalBargeIn (now : Nat) (s : ClientState) :
    ClientState × List Effect :=
  if s.isInCooldown then
    let s1 := { s with lastInterruptTime := now }
    let s2 := clearStoredTimeout s1
    let p := setTimeout .endCooldown s2.interruptCooldownMs s2
    ({ p.2 with interruptTimeout := some p.1 }, [])
  else
    let q := if s.isInterrupted then forceCleanupInterrupt s else (s, [])
    let s2 :=
      { q.1 with
          lastInterruptTime := now
          isInterrupted := true
          isInCooldown := true
          audioBufferDuringCooldown := [] }
    let e1 := if s2.wsOpen then [Effect.sendInterrupt] else []
    let e2 := if s2.hasAudioRecorder then [Effect.stopMonitoring] else []
    let e3 := if s2.hasAudioPlayer then [Effect.playerStop] else []
    let s3 := { s2 with pendingTurnComplete := false }
    let r := setAvatarState .idle s3
    let s5 := clearStoredTimeout r.1
    let p := setTimeout .endCooldown s5.interruptCooldownMs s5
    ({ p.2 with interruptTimeout := some p.1 },
     q.2 ++ e1 ++ e2 ++ e3 ++ r.2)

/-- Embedding of `GeminiLiveClient.endCooldownPeriod()` (app.js lines 803–836): leave
the cooldown/interrupted state; when the buffer is non-empty, send every
buffered chunk in order if the socket is open, then clear the buffer
(even when the socket is not open); finally return to listening. -/
def endCooldownPeriod (s : ClientState) : ClientState × List Effect :=
  let s1 :=
    { s with
        isInCooldown := false
        isInterrupted := false
        interruptTimeout := none }
  let flushed :=
    if 0 < s1.audioBufferDuringCooldown.length then
      if s1.wsOpen then
        ({ s1 with audioBufferDuringCooldown := [] },
         s1.audioBufferDuringCooldown.map Effect.sendAudio)
      else
        ({ s1 with audioBufferDuringCooldown := [] }, [])
    else (s1, [])
  let r := setAvatarState .listening flushed.1
  (r.1, flushed.2 ++ r.2)

/-- Embedding of `GeminiLiveClient.clearInterruptState()` (app.js lines 838–847), the
legacy path scheduled by the server-side interrupt handler: returns to
listening and empties the cooldown buffer without sending it. -/
def clearInterruptState (s : ClientState) : ClientState × List Effect :=
  let r := setAvatarState .listening s
  ({ r.1 with
       isInterrupted := false
       isInCooldown := false
       interruptTimeout := none
       audioBufferDuringCooldown := [] },
   r.2)

/-- The `case interrupted` branch of `GeminiLiveClient.handleMessage`
(app.js lines 1000–1028): ignored while already in a client-side
cooldown; otherwise sets the interrupted flag (but not the cooldown
flag), stops monitoring and playback, goes idle, and schedules
`clearInterruptState` after 150 ms. -/
def handleRemoteInterrupted (s : ClientState) : ClientState × List Effect :=
  if s.isInCooldown then (s, [])
  else
    let s1 := { s with isInterrupted := true }
    let e1 := if s1.hasAudioRecorder then [Effect.stopMonitoring] else []
    -- `this.audioPlayer.stop()` is called unguarded in this branch.
    let e2 := [Effect.playerStop]
    let s2 := { s1 with pendingTurnComplete := false }
    let r := setAvatarState .idle s2
    let s4 := clearStoredTimeout r.1
    let p := setTimeout .clearInterrupt 150 s4
    ({ p.2 with interruptTimeout := some p.1 }, e1 ++ e2 ++ r.2)

/-- Embedding of `this.audioRecorder.onData` (app.js lines 704–719): a locally
captured microphone frame is buffered while in cooldown, sent live
otherwise — and silently dropped when the socket is not open. -/
def onData (frame : Nat) (s : ClientState) : ClientState × List Effect :=
  if s.wsOpen then
    if s.isInCooldown then
      ({ s with
           audioBufferDuringCooldown :=
             s.audioBufferDuringCooldown ++ [frame] },
       [])
    else (s, [Effect.sendAudio frame])
  else (s, [])

/-- The inbound `audio` fast path of `GeminiLiveClient.handleMessage`
(app.js lines 877–938): dropped while dancing or interrupted; otherwise
clears any pending turn-complete flag, cancels a stale interrupt timer,
switches the avatar to speaking and enqueues the chunk in the playback
sink. -/
def handleAudioMessage (s : ClientState) : ClientState × List Effect :=
  if s.isDancing then (s, [])
  else if s.isInterrupted then (s, [])
  else
    let s1 := { s with pendingTurnComplete := false }
    let s2 := { clearStoredTimeout s1 with interruptTimeout := none }
    let r := setAvatarState .speaking s2
    ({ r.1 with playerQueue := r.1.playerQueue + 1 }, r.2)

/-- The `case turn_complete` branch of `GeminiLiveClient.handleMessage`
(app.js lines 976–998): with audio still queued, record the pending
turn-complete (pausing the talking video); with an empty queue, stop
monitoring and return to listening immediately. -/
def handleTurnComplete (s : ClientState) : ClientState × List Effect :=
  if 0 < s.playerQueue then
    ({ s with pendingTurnComplete := true },
     if s.avatar = .speaking then [Effect.pauseVideo] else [])
  else
    let e1 := if s.hasAudioRecorder then [Effect.stopMonitoring] else []
    let r := setAvatarState .listening s
    (r.1, e1 ++ r.2)

/-- Embedding of `this.audioPlayer.onAllAudioEnded` (app.js lines 681–693): monitoring
stops; a pending turn-complete is processed now, returning to
listening. -/
def onAllAudioEnded (s : ClientState) : ClientState × List Effect :=
  let e1 := if s.hasAudioRecorder then [Effect.stopMonitoring] else []
  if s.pendingTurnComplete then
    let r := setAvatarState .listening { s with pendingTurnComplete := false }
    (r.1, e1 ++ r.2)
  else (s, e1)

/-- The playback sink reports its queue drained: the queue is empty and
the `onAllAudioEnded` callback runs. -/
def handleDrained (s : ClientState) : ClientState × List Effect :=
  onAllAudioEnded { s with playerQueue := 0 }

/-- Embedding of `GeminiLiveClient.cleanup()` (app.js lines 1069–1144), restricted to
the modelled fields: cancels the interrupt timer, stops and releases the
recorder and player, closes the socket, resets every interrupt/cooldown
flag and buffer, and sets the avatar back to idle. -/
def cleanup (s : ClientState) : ClientState × List Effect :=
  let s1 := { clearStoredTimeout s with interruptTimeout := none }
  let e1 := if s1.hasAudioRecorder then [Effect.stopMonitoring] else []
  let e2 := if s1.hasAudioPlayer then [Effect.playerStop] else []
  let s2 :=
    { s1 with
        hasAudioRecorder := false
        hasAudioPlayer := false
        wsOpen := false
        isInterrupted := false
        isInCooldown := false
        audioBufferDuringCooldown := []
        pendingTurnComplete := false
        lastInterruptTime := 0
        playerQueue := 0 }
  let r := setAvatarState .idle s2
  (r.1, e1 ++ e2 ++ r.2)

/-- A pending timer with handle `i` expires: it is no longer pending and
its callback runs. -/
def fireTimer (i : Nat) (s : ClientState) : ClientState × List Effect :=
  match s.pendingTimers.find? (fun t => t.id == i) with
  | none => (s, [])
  | some t =>
      let s1 := clearTimeout i s
      match t.action with
      | .endCooldown => endCooldownPeriod s1
      | .clearInterrupt => clearInterruptState s1

/-- The operations that can hit the orchestrator state: connection
lifecycle, local barge-in, remote interrupt frame, captured microphone
frames, inbound audio frames, turn-complete frames, playback drain,
timer expiry, and session cleanup. -/
inductive Op where
  | wsOpened
  | wsClosed
  | configLoaded
  | localBargeIn (now : Nat)
  | remoteInterrupted
  | micData (frame : Nat)
  | audioMessage
  | turnComplete
  | drained
  | timerExpired (i : Nat)
  | sessionCleanup
  deriving DecidableEq, Repr

/-- One orchestrator step with its emitted effects. -/
def stepE (op : Op) (s : ClientState) : ClientState × List Effect :=
  match op with
  | .wsOpened =>
      ({ s with wsOpen := true, hasAudioPlayer := true,
                hasAudioRecorder := true }, [])
  | .wsClosed => cleanup s
  | .configLoaded => ({ s with videoReady := true }, [])
  | .localBargeIn now => handleLocalBargeIn now s
  | .remoteInterrupted => handleRemoteInterrupted s
  | .micData frame => onData frame s
  | .audioMessage => handleAudioMessage s
  | .turnComplete => handleTurnComplete s
  | .drained => handleDrained s
  | .timerExpired i => fireTimer i s
  | .sessionCleanup => cleanup s

/-- One orchestrator step, state only. -/
def step (op : Op) (s : ClientState) : ClientState :=
  (stepE op s).1

/-- Run a list of operations from a state, state only. -/
def run : List Op → ClientState → ClientState
  | [], s => s
  | op :: ops, s => run ops (step op s)

/-- Run a list of operations accumulating all emitted effects. -/
def runE : List Op → ClientState → ClientState × List Effect
  | [], s => (s, [])
  | op :: ops, s =>
      ((runE ops (stepE op s).1).1,
       (stepE op s).2 ++ (runE ops (stepE op s).1).2)

/-- The audio frames sent over the WebSocket among a list of effects, in
order. -/
def sentAudio (effs : List Effect) : List Nat :=
  effs.filterMap (fun e =>
    match e with
    | .sendAudio f => some f
    | _ => none)

/-- The avatar transitions into `listening` among a list of effects. -/
def toListeningChanges (effs : List Effect) : List Effect :=
  effs.filter (fun e =>
    match e with
    | .avatarChange _ AvatarState.listening => true
    | _ => false)

/-- The number of outbound `interrupt` frames among a list of effects. -/
def interruptSendCount (effs : List Effect) : Nat :=
  (effs.filter (fun e =>
    match e with
    | .sendInterrupt => true
    | _ => false)).length

/-- Deliver a sequence of captured microphone frames to
`audioRecorder.onData`, in capture order, accumulating the emitted
effects. -/
def micRun : List Nat → ClientState → ClientState × List Effect
  | [], s => (s, [])
  | f :: fs, s =>
      ((micRun fs (onData f s).1).1,
       (onData f s).2 ++ (micRun fs (onData f s).1).2)

/-! ## Oscillation driver (`startVideoSpeakingCycle` / `startReverseCycle`,
app.js lines 1605–1780)

At every phase boundary the code force-sets `video.currentTime` to the
exact computed target (lines 1652, 1705, 1752), so the playhead position
at phase boundaries obeys an exact recurrence: after the initial forward
phase the position is `F1`; each subsequent cycle runs a reverse phase to
`max 0 (pos − R)` (line 1682) followed by a forward phase to
`target + F2` (line 1731). -/

/-- The playhead position at the forward-phase boundary after `n` full
reverse/forward cycles (`n = 0` is the end of the initial forward
phase). -/
def boundaryPos (F1 R F2 : ℚ) : Nat → ℚ
  | 0 => F1
  | n + 1 => max 0 (boundaryPos F1 R F2 n - R) + F2

/-! ## Demonstration states used by witnesses and counterexamples -/

/-- A connected, configured client sitting in the listening state. -/
def demoBase : ClientState :=
  { initClient with
      wsOpen := true
      hasAudioPlayer := true
      hasAudioRecorder := true
      videoReady := true
      avatar := .listening }

/-- A connected client in the middle of an agent turn. -/
def demoSpeaking : ClientState :=
  { demoBase with avatar := .speaking, playerQueue := 1 }

/-- A connected client inside a local-barge-in cooldown, with two frames
already buffered and the cooldown timer pending. -/
def demoCooldown : ClientState :=
  { demoBase with
      avatar := .idle
      isInterrupted := true
      isInCooldown := true
      audioBufferDuringCooldown := [10, 11]
      interruptTimeout := some 0
      pendingTimers := [⟨0, 2000, .endCooldown⟩]
      nextTimerId := 1 }

/-- The cooldown state of `demoCooldown` after the WebSocket has dropped. -/
def demoClosedCooldown : ClientState :=
  { demoCooldown with wsOpen := false, audioBufferDuringCooldown := [3, 4] }

end AvatarCloud

namespace AvatarCloud

/-! ## Claim C1 — caption word extraction (corrected)

The claim asserts `extractNewWords("Hello world", "Hello", false) =
["world"]`, but the extraction loop runs over indices
`previousWords.length … currentWords.length − 2` and the trailing word is
appended only when `isFinal` is set, so the interim call extracts
nothing.  The final-fragment half of the claim does hold. -/

/-- C1 counterexample: at `previousText = "Hello"`,
`currentText = "Hello world"`, `isFinal = false`, the code extracts `[]`,
not `["world"]` — the trailing word of an interim fragment is withheld. -/
theorem extractNewWords_interim_cex :
    extractNewWords "Hello world" "Hello" false ≠ ["world"] := by decide

/-- C1 (amended): with `previousText = "Hello"`,
`currentText = "Hello world"`, `isFinal = false` the extracted new words
are `[]` (an interim fragment withholds its trailing word), and with
`previousText = ""`, `currentText = "Hello there friend"`,
`isFinal = true` the extracted new words are
`["Hello", "there", "friend"]`. -/
theorem extractNewWords_spec_examples :
    extractNewWords "Hello world" "Hello" false = [] ∧
    extractNewWords "Hello there friend" "" true =
      ["Hello", "there", "friend"] := by decide

/-! ## Claim C6 — oscillation boundary position (corrected)

With `F2 = R` but `F1 < R`, the reverse-phase floor `max 0 (pos − R)`
clips the reverse target to `0`, so the next forward boundary is
`F2 = R ≠ F1`: the claim needs the extra hypothesis `R ≤ F1`.  (The
shipped defaults `F1 = 3, R = 2, F2 = 2` satisfy it.) -/

/-- C6 counterexample: with `F1 = 1`, `R = 2`, `F2 = 2` the configured
durations satisfy `F2 = R`, yet after one full cycle the boundary
playhead is `2`, not `P1 = F1 = 1` — the reverse floor clipped the
target. -/
theorem boundaryPos_cex :
    boundaryPos 1 2 2 1 = 2 ∧ ¬ boundaryPos 1 2 2 1 = 1 := by
  norm_num [boundaryPos]

/-- C6 (amended): for every `N ≥ 1`, if the configured durations satisfy
`F2 = R` and additionally `R ≤ F1` (so the reverse floor never clips),
the playhead at the cycle boundary after `N` full cycles equals
`P1 = F1` exactly, because every phase boundary force-sets the playhead
to its computed target. -/
theorem boundaryPos_stable (F1 R F2 : ℚ) (N : ℕ) (hF2 : F2 = R)
    (hRF1 : R ≤ F1) (_hN : 1 ≤ N) : boundaryPos F1 R F2 N = F1 := by
  have key : ∀ n, boundaryPos F1 R F2 n = F1 := by
    intro n
    induction n with
    | zero => rfl
    | succ n ih =>
        have h0 : (0 : ℚ) ≤ F1 - R := by linarith
        calc
          boundaryPos F1 R F2 (n + 1) =
              max 0 (boundaryPos F1 R F2 n - R) + F2 := rfl
          _ = max 0 (F1 - R) + R := by rw [ih, hF2]
          _ = (F1 - R) + R := by rw [max_eq_right h0]
          _ = F1 := by ring
  exact key N

/-- C6 witness: the shipped defaults `F1 = 3, R = 2, F2 = 2` satisfy
`F2 = R` and `R ≤ F1`, and after one full cycle the boundary playhead is
exactly `3 = F1`. -/
theorem boundaryPos_stable_witness : boundaryPos 3 2 2 1 = 3 :=
  boundaryPos_stable 3 2 2 1 rfl (by norm_num) (by norm_num)

/-! ## Claim C8 — previously-seen-text tracker at turn boundaries (code bug)

`lastProcessedText` is reset only inside `clear()` (app.js line 154),
and `clear()` is reached only from `cleanup()` (session teardown,
line 1127) and from switching the CC toggle off (line 320).  No
turn-boundary event (`turn_complete`, `interrupted`, first audio of a
new turn, transcription handlers at lines 952–969) resets it, so the
word diff of a new turn runs against the previous turn transcript and
silently drops words, exactly the failure the specification says the
reset must prevent. -/

/-- C8 failing input: turn 1 ends with the final transcript
`"Hello there"`; turn 2 sends the cumulative fragments
`"Good morning sunshine"` (interim) and
`"Good morning sunshine friends"` (final).  The code — which never
clears the tracker between turns — buffers only
`["Hello", "there", "friends"]`, silently dropping `"Good"` and
`"morning"`; with the reset the claim requires, turn 2 would buffer
`["Good", "morning", "friends"]`.  The tracker provably still holds the
old transcript at the turn boundary. -/
theorem caption_turn_reset_bug :
    (addCaptions
        [("Hello there", true), ("Good morning sunshine", false),
         ("Good morning sunshine friends", true)]
        CaptionState.init).bufferedWords = ["Hello", "there", "friends"] ∧
    (addCaptions [("Hello there", true)]
        CaptionState.init).lastProcessedText = "Hello there" ∧
    (addCaptions
        [("Good morning sunshine", false),
         ("Good morning sunshine friends", true)]
        (captionClear (addCaptions [("Hello there", true)]
          CaptionState.init))).bufferedWords =
      ["Good", "morning", "friends"] := by decide

/-! ## Helper lemmas about effects and `setAvatarState` -/

theorem sentAudio_nil : sentAudio [] = [] := rfl

theorem sentAudio_append (a b : List Effect) :
    sentAudio (a ++ b) = sentAudio a ++ sentAudio b := by
  simp [sentAudio]

theorem sentAudio_map (l : List Nat) :
    sentAudio (l.map Effect.sendAudio) = l := by
  induction l with
  | nil => rfl
  | cons x xs ih =>
      simp only [sentAudio, List.map_cons, List.filterMap_cons] at *
      simp [ih]

theorem sentAudio_setAvatarState (st : AvatarState) (s : ClientState) :
    sentAudio (setAvatarState st s).2 = [] := by
  unfold setAvatarState
  split_ifs <;> simp [sentAudio, List.filterMap_cons]

theorem setAvatarState_flags (st : AvatarState) (s : ClientState) :
    (setAvatarState st s).1.wsOpen = s.wsOpen ∧
    (setAvatarState st s).1.isInCooldown = s.isInCooldown ∧
    (setAvatarState st s).1.isInterrupted = s.isInterrupted ∧
    (setAvatarState st s).1.audioBufferDuringCooldown
        = s.audioBufferDuringCooldown ∧
    (setAvatarState st s).1.pendingTimers = s.pendingTimers ∧
    (setAvatarState st s).1.interruptTimeout = s.interruptTimeout ∧
    (setAvatarState st s).1.pendingTurnComplete = s.pendingTurnComplete ∧
    (setAvatarState st s).1.videoReady = s.videoReady ∧
    (setAvatarState st s).1.playerQueue = s.playerQueue := by
  unfold setAvatarState
  split_ifs <;> simp

theorem setAvatarState_avatar (st : AvatarState) (s : ClientState)
    (hv : s.videoReady = true) : (setAvatarState st s).1.avatar = st := by
  unfold setAvatarState
  split_ifs with h1 h2 <;> simp_all

/-- While the socket is open and the client is in cooldown, one captured
frame is appended to the cooldown buffer, nothing is emitted, and no
other field changes. -/
theorem onData_cooldown (f : Nat) (s : ClientState)
    (hws : s.wsOpen = true) (hcd : s.isInCooldown = true) :
    onData f s =
      ({ s with
           audioBufferDuringCooldown :=
             s.audioBufferDuringCooldown ++ [f] }, []) := by
  simp [onData, hws, hcd]

/-- While the socket is open and the client is in cooldown, a whole
sequence of captured frames is appended to the cooldown buffer in
capture order, nothing is emitted, and no other field changes. -/
theorem micRun_cooldown (frames : List Nat) (s : ClientState)
    (hws : s.wsOpen = true) (hcd : s.isInCooldown = true) :
    micRun frames s =
      ({ s with
           audioBufferDuringCooldown :=
             s.audioBufferDuringCooldown ++ frames }, []) := by
  induction frames generalizing s with
  | nil => simp [micRun]
  | cons f fs ih =>
      have h1 := onData_cooldown f s hws hcd
      have h2 := ih ({ s with
        audioBufferDuringCooldown :=
          s.audioBufferDuringCooldown ++ [f] }) hws hcd
      simp [micRun, h1, h2]

/-- With the socket open, the expiry of the cooldown flushes the whole
cooldown buffer over the socket in order, empties it, and leaves the
cooldown/interrupted state. -/
theorem endCooldown_flush (s : ClientState) (hws : s.wsOpen = true) :
    sentAudio (endCooldownPeriod s).2 = s.audioBufferDuringCooldown ∧
    (endCooldownPeriod s).1.audioBufferDuringCooldown = [] ∧
    (endCooldownPeriod s).1.isInCooldown = false ∧
    (endCooldownPeriod s).1.isInterrupted = false := by
  simp only [endCooldownPeriod, hws, ite_true]
  split_ifs with h
  · simp [setAvatarState_flags, sentAudio_append, sentAudio_map,
      sentAudio_setAvatarState]
  · have hb : s.audioBufferDuringCooldown = [] := by
      cases hb2 : s.audioBufferDuringCooldown with
      | nil => rfl
      | cons x xs => rw [hb2] at h; simp at h
    simp [setAvatarState_flags, sentAudio_setAvatarState, hb]

/-! ## Claim C2 — cooldown buffering never drops and flushes in order -/

/-- C2: while the orchestrator is in `CooldownBuffering` with the socket
open, every captured microphone frame of an arbitrary capture sequence
is appended to the ordered cooldown buffer (nothing is emitted live, so
none is dropped), and at cooldown expiry all buffered frames are
forwarded to the transport in original capture order — for a cooldown of
any length, since the result holds for every frame sequence. -/
theorem cooldown_buffers_then_flushes_in_order (s : ClientState)
    (frames : List Nat) (hws : s.wsOpen = true)
    (hcd : s.isInCooldown = true) :
    (micRun frames s).1.audioBufferDuringCooldown
        = s.audioBufferDuringCooldown ++ frames ∧
    (micRun frames s).2 = [] ∧
    sentAudio (endCooldownPeriod (micRun frames s).1).2
        = s.audioBufferDuringCooldown ++ frames ∧
    (endCooldownPeriod (micRun frames s).1).1.audioBufferDuringCooldown
        = [] := by
  have h := micRun_cooldown frames s hws hcd
  rw [h]
  have hflush := endCooldown_flush
    ({ s with audioBufferDuringCooldown :=
        s.audioBufferDuringCooldown ++ frames }) hws
  exact ⟨rfl, rfl, hflush.1, hflush.2.1⟩

/-- C2 witness: the concrete cooldown state `demoCooldown` (buffer
`[10, 11]`) capturing frames `[12, 13]` buffers them in order and flushes
`[10, 11, 12, 13]` at expiry. -/
theorem cooldown_buffers_witness :
    (micRun [12, 13] demoCooldown).1.audioBufferDuringCooldown
        = demoCooldown.audioBufferDuringCooldown ++ [12, 13] ∧
    (micRun [12, 13] demoCooldown).2 = [] ∧
    sentAudio (endCooldownPeriod (micRun [12, 13] demoCooldown).1).2
        = demoCooldown.audioBufferDuringCooldown ++ [12, 13] ∧
    (endCooldownPeriod
        (micRun [12, 13] demoCooldown).1).1.audioBufferDuringCooldown
        = [] :=
  cooldown_buffers_then_flushes_in_order demoCooldown [12, 13] rfl rfl

/-! ## Claim C10 — cooldown buffer discarded when the socket is closed -/

/-- C10: if the WebSocket is not open when the cooldown timer expires,
`endCooldownPeriod` empties the cooldown buffer without sending any of
its frames: the audio captured during the cooldown is silently discarded
rather than flushed or retained. -/
theorem endCooldown_discards_when_closed (s : ClientState)
    (hws : s.wsOpen = false) :
    (endCooldownPeriod s).1.audioBufferDuringCooldown = [] ∧
    sentAudio (endCooldownPeriod s).2 = [] := by
  unfold endCooldownPeriod setAvatarState
  simp only [hws]
  split_ifs <;> simp_all [sentAudio]

/-- C10 witness: a concrete cooldown state holding frames `[3, 4]` with
the socket closed — the expiry empties the buffer and sends nothing. -/
theorem endCooldown_discards_witness :
    (endCooldownPeriod demoClosedCooldown).1.audioBufferDuringCooldown
        = [] ∧
    sentAudio (endCooldownPeriod demoClosedCooldown).2 = [] :=
  endCooldown_discards_when_closed demoClosedCooldown rfl

/-! ## Claim C4 — local barge-in while the agent speaks -/

/-- C4: on a local barge-in while the agent is speaking (so the client is
neither in cooldown nor already interrupted), within the same synchronous
handler call the playback sink receives a stop/discard call, the avatar is
set to `idle`, exactly one outbound `interrupt` frame goes over the open
socket, and the pending turn-complete flag is discarded. -/
theorem local_barge_in_effects (now : Nat) (s : ClientState)
    (hcd : s.isInCooldown = false) (hInt : s.isInterrupted = false)
    (hws : s.wsOpen = true) (hap : s.hasAudioPlayer = true)
    (hv : s.videoReady = true) (hsp : s.avatar = AvatarState.speaking) :
    interruptSendCount (handleLocalBargeIn now s).2 = 1 ∧
    Effect.playerStop ∈ (handleLocalBargeIn now s).2 ∧
    (handleLocalBargeIn now s).1.avatar = AvatarState.idle ∧
    (handleLocalBargeIn now s).1.pendingTurnComplete = false := by
  cases hIT : s.interruptTimeout <;> cases hr : s.hasAudioRecorder <;>
    simp [handleLocalBargeIn, setAvatarState, setTimeout, clearTimeout,
      clearStoredTimeout, interruptSendCount, hcd, hInt, hws, hap, hv,
      hsp, hIT, hr, List.filter_append]

/-- C4 witness: the concrete speaking state `demoSpeaking` on a local
barge-in at time `1000`. -/
theorem local_barge_in_effects_witness :
    interruptSendCount (handleLocalBargeIn 1000 demoSpeaking).2 = 1 ∧
    Effect.playerStop ∈ (handleLocalBargeIn 1000 demoSpeaking).2 ∧
    (handleLocalBargeIn 1000 demoSpeaking).1.avatar = AvatarState.idle ∧
    (handleLocalBargeIn 1000 demoSpeaking).1.pendingTurnComplete
        = false :=
  local_barge_in_effects 1000 demoSpeaking rfl rfl rfl rfl rfl rfl

/-! ## Claim C5 — cooldown re-trigger extends the single timer -/

theorem endCooldownPeriod_pendingTimers (s : ClientState) :
    (endCooldownPeriod s).1.pendingTimers = s.pendingTimers := by
  simp only [endCooldownPeriod]
  split_ifs <;> simp [setAvatarState_flags]

theorem fireTimer_no_pending (j : Nat) (s : ClientState)
    (h : s.pendingTimers = []) : fireTimer j s = (s, []) := by
  simp [fireTimer, h, List.find?]

/-- The cooldown re-trigger branch of `handleLocalBargeIn`, in closed
form: the old timer handle is cancelled and one fresh cooldown timer is
registered; nothing else changes but the debounce timestamp. -/
theorem handleLocalBargeIn_retrigger (now : Nat) (s : ClientState)
    (t : Timer) (hcd : s.isInCooldown = true) (hp : s.pendingTimers = [t])
    (hit : s.interruptTimeout = some t.id) :
    handleLocalBargeIn now s =
      ({ s with
           lastInterruptTime := now
           pendingTimers :=
             [⟨s.nextTimerId, s.interruptCooldownMs,
               TimerAction.endCooldown⟩]
           nextTimerId := s.nextTimerId + 1
           interruptTimeout := some s.nextTimerId }, []) := by
  simp [handleLocalBargeIn, hcd, hit, hp, clearTimeout, clearStoredTimeout,
    setTimeout, List.filter, bne_self_eq_false]

/-- C5: a local interrupt while already in `CooldownBuffering` (with its
single pending cooldown timer `t`) cancels `t` and registers exactly one
fresh cooldown timer — never a second concurrent one — leaves the buffer
intact, and exactly one flush occurs: firing the extended timer flushes
the buffer, after which no pending timer remains, so no further firing
can flush again. -/
theorem cooldown_retrigger_extends_timer (now : Nat) (s : ClientState)
    (t : Timer) (hcd : s.isInCooldown = true) (hp : s.pendingTimers = [t])
    (hit : s.interruptTimeout = some t.id) (hws : s.wsOpen = true) :
    (handleLocalBargeIn now s).1.pendingTimers =
      [⟨s.nextTimerId, s.interruptCooldownMs, TimerAction.endCooldown⟩] ∧
    (handleLocalBargeIn now s).1.interruptTimeout = some s.nextTimerId ∧
    (handleLocalBargeIn now s).1.audioBufferDuringCooldown
        = s.audioBufferDuringCooldown ∧
    sentAudio
        (fireTimer s.nextTimerId (handleLocalBargeIn now s).1).2
        = s.audioBufferDuringCooldown ∧
    (fireTimer s.nextTimerId
        (handleLocalBargeIn now s).1).1.pendingTimers = [] ∧
    (∀ j, fireTimer j
        (fireTimer s.nextTimerId (handleLocalBargeIn now s).1).1 =
      ((fireTimer s.nextTimerId (handleLocalBargeIn now s).1).1, [])) := by
  rw [handleLocalBargeIn_retrigger now s t hcd hp hit]
  set s1 : ClientState :=
    { s with
        lastInterruptTime := now
        pendingTimers :=
          [⟨s.nextTimerId, s.interruptCooldownMs, TimerAction.endCooldown⟩]
        nextTimerId := s.nextTimerId + 1
        interruptTimeout := some s.nextTimerId } with hs1
  have hfire : fireTimer s.nextTimerId s1 =
      endCooldownPeriod { s1 with pendingTimers := [] } := by
    simp [fireTimer, hs1, List.find?, clearTimeout, List.filter,
      bne_self_eq_false]
  have hflush := endCooldown_flush { s1 with pendingTimers := [] } hws
  have hpt := endCooldownPeriod_pendingTimers
    { s1 with pendingTimers := [] }
  refine ⟨rfl, rfl, rfl, ?_, ?_, ?_⟩
  · rw [hfire]; exact hflush.1
  · rw [hfire]; exact hpt
  · intro j
    apply fireTimer_no_pending
    rw [hfire]; exact hpt

/-- C5 witness: the concrete cooldown state `demoCooldown` (pending
timer handle `0`, buffer `[10, 11]`) re-triggered at time `500`. -/
theorem cooldown_retrigger_witness :
    (handleLocalBargeIn 500 demoCooldown).1.pendingTimers =
      [⟨demoCooldown.nextTimerId, demoCooldown.interruptCooldownMs,
        TimerAction.endCooldown⟩] ∧
    (handleLocalBargeIn 500 demoCooldown).1.interruptTimeout
        = some demoCooldown.nextTimerId ∧
    (handleLocalBargeIn 500 demoCooldown).1.audioBufferDuringCooldown
        = demoCooldown.audioBufferDuringCooldown ∧
    sentAudio
        (fireTimer demoCooldown.nextTimerId
          (handleLocalBargeIn 500 demoCooldown).1).2
        = demoCooldown.audioBufferDuringCooldown ∧
    (fireTimer demoCooldown.nextTimerId
        (handleLocalBargeIn 500 demoCooldown).1).1.pendingTimers = [] ∧
    (∀ j, fireTimer j
        (fireTimer demoCooldown.nextTimerId
          (handleLocalBargeIn 500 demoCooldown).1).1 =
      ((fireTimer demoCooldown.nextTimerId
          (handleLocalBargeIn 500 demoCooldown).1).1, [])) :=
  cooldown_retrigger_extends_timer 500 demoCooldown
    ⟨0, 2000, .endCooldown⟩ rfl rfl rfl rfl

/-! ## Claim C3 — interrupt transitions (corrected)

The local path matches the claim: it enters the interrupted + cooldown
state at once, schedules `endCooldownPeriod` after `interruptCooldownMs`
(2000 ms by default), and the expiry flushes the cooldown buffer in order
and returns to listening.  The remote path does NOT match it: the
`case interrupted` handler never sets `isInCooldown`, so no cooldown
buffering happens (microphone frames keep streaming live), and its 150 ms
timer runs `clearInterruptState`, which empties the buffer *without*
sending it. -/

/-- The fresh (not-yet-in-cooldown, not-yet-interrupted) local barge-in
path of `handleLocalBargeIn`, in closed form. -/
theorem handleLocalBargeIn_fresh (now : Nat) (s : ClientState)
    (hcd : s.isInCooldown = false) (hInt : s.isInterrupted = false)
    (hit : s.interruptTimeout = none) (hv : s.videoReady = true) :
    (handleLocalBargeIn now s).1 =
      { s with
          lastInterruptTime := now
          isInterrupted := true
          isInCooldown := true
          audioBufferDuringCooldown := []
          pendingTurnComplete := false
          avatar := AvatarState.idle
          pendingTimers := s.pendingTimers ++
            [⟨s.nextTimerId, s.interruptCooldownMs,
              TimerAction.endCooldown⟩]
          nextTimerId := s.nextTimerId + 1
          interruptTimeout := some s.nextTimerId } := by
  by_cases ha : s.avatar = AvatarState.idle <;>
    simp [handleLocalBargeIn, setAvatarState, setTimeout, clearTimeout,
      clearStoredTimeout, hcd, hInt, hit, hv, ha]

/-- The not-yet-in-cooldown remote-interrupt path of
`handleRemoteInterrupted`, in closed form. -/
theorem handleRemoteInterrupted_fresh (s : ClientState)
    (hcd : s.isInCooldown = false) (hit : s.interruptTimeout = none)
    (hv : s.videoReady = true) :
    (handleRemoteInterrupted s).1 =
      { s with
          isInterrupted := true
          pendingTurnComplete := false
          avatar := AvatarState.idle
          pendingTimers := s.pendingTimers ++
            [⟨s.nextTimerId, 150, TimerAction.clearInterrupt⟩]
          nextTimerId := s.nextTimerId + 1
          interruptTimeout := some s.nextTimerId } := by
  by_cases ha : s.avatar = AvatarState.idle <;>
    simp [handleRemoteInterrupted, setAvatarState, setTimeout,
      clearTimeout, clearStoredTimeout, hcd, hit, hv, ha]

theorem endCooldownPeriod_avatar (s : ClientState)
    (hv : s.videoReady = true) :
    (endCooldownPeriod s).1.avatar = AvatarState.listening := by
  simp only [endCooldownPeriod]
  split_ifs <;> exact setAvatarState_avatar _ _ (by simp [hv])

theorem clearInterruptState_spec (s : ClientState)
    (hv : s.videoReady = true) :
    sentAudio (clearInterruptState s).2 = [] ∧
    (clearInterruptState s).1.avatar = AvatarState.listening ∧
    (clearInterruptState s).1.audioBufferDuringCooldown = [] ∧
    (clearInterruptState s).1.isInterrupted = false ∧
    (clearInterruptState s).1.isInCooldown = false := by
  simp [clearInterruptState, sentAudio_setAvatarState,
    setAvatarState_avatar _ _ hv]

/-- C3 counterexample: from the concrete speaking state `demoSpeaking`, a
remote `interrupted` frame leaves `isInCooldown = false` — the
orchestrator is Interrupted but never enters `CooldownBuffering`, so the
claim fails for remote-detected interrupts.  Concretely: a microphone
frame arriving during the remote settle window is sent live instead of
being buffered, the scheduled 150 ms timer runs `clearInterruptState`
(not `endCooldownPeriod`), and firing it forwards nothing. -/
theorem remote_interrupt_no_cooldown_cex :
    (handleRemoteInterrupted demoSpeaking).1.isInterrupted = true ∧
    (handleRemoteInterrupted demoSpeaking).1.isInCooldown = false ∧
    (onData 42
        (handleRemoteInterrupted
          demoSpeaking).1).1.audioBufferDuringCooldown = [] ∧
    sentAudio (onData 42 (handleRemoteInterrupted demoSpeaking).1).2
        = [42] ∧
    (handleRemoteInterrupted demoSpeaking).1.pendingTimers =
      [⟨0, 150, TimerAction.clearInterrupt⟩] ∧
    sentAudio (fireTimer 0 (handleRemoteInterrupted demoSpeaking).1).2
        = [] := by decide

/-- C3 (amended): from a clean connected state, a *local* barge-in moves
to Interrupted and CooldownBuffering immediately, scheduling one cooldown
timer of `interruptCooldownMs` milliseconds (2000 by default, first
conjunct); when that timer expires, all audio buffered during the
cooldown is flushed in original order as one new turn and the state
becomes Listening.  A *remote* `interrupted` frame instead sets only the
interrupted flag — it never enters CooldownBuffering — and schedules a
150 ms `clearInterruptState` timer whose expiry discards any buffered
audio without sending it and returns to Listening. -/
theorem interrupt_transition_behavior (now : Nat) (s : ClientState)
    (frames : List Nat) (hcd : s.isInCooldown = false)
    (hInt : s.isInterrupted = false) (hws : s.wsOpen = true)
    (hv : s.videoReady = true) (hit : s.interruptTimeout = none)
    (hp : s.pendingTimers = []) :
    initClient.interruptCooldownMs = 2000 ∧
    (handleLocalBargeIn now s).1.isInterrupted = true ∧
    (handleLocalBargeIn now s).1.isInCooldown = true ∧
    (handleLocalBargeIn now s).1.pendingTimers =
      [⟨s.nextTimerId, s.interruptCooldownMs,
        TimerAction.endCooldown⟩] ∧
    sentAudio (fireTimer s.nextTimerId
        (micRun frames (handleLocalBargeIn now s).1).1).2 = frames ∧
    (fireTimer s.nextTimerId
        (micRun frames (handleLocalBargeIn now s).1).1).1.avatar
        = AvatarState.listening ∧
    (fireTimer s.nextTimerId
        (micRun frames (handleLocalBargeIn now s).1).1).1.isInCooldown
        = false ∧
    (handleRemoteInterrupted s).1.isInterrupted = true ∧
    (handleRemoteInterrupted s).1.isInCooldown = false ∧
    (handleRemoteInterrupted s).1.pendingTimers =
      [⟨s.nextTimerId, 150, TimerAction.clearInterrupt⟩] ∧
    sentAudio (fireTimer s.nextTimerId
        (handleRemoteInterrupted s).1).2 = [] ∧
    (fireTimer s.nextTimerId (handleRemoteInterrupted s).1).1.avatar
        = AvatarState.listening ∧
    (fireTimer s.nextTimerId
        (handleRemoteInterrupted s).1).1.audioBufferDuringCooldown
        = [] := by
  have hL := handleLocalBargeIn_fresh now s hcd hInt hit hv
  have hR := handleRemoteInterrupted_fresh s hcd hit hv
  rw [hL, hR, hp]
  set sL : ClientState :=
    { s with
        lastInterruptTime := now
        isInterrupted := true
        isInCooldown := true
        audioBufferDuringCooldown := []
        pendingTurnComplete := false
        avatar := AvatarState.idle
        pendingTimers := [] ++
          [⟨s.nextTimerId, s.interruptCooldownMs,
            TimerAction.endCooldown⟩]
        nextTimerId := s.nextTimerId + 1
        interruptTimeout := some s.nextTimerId } with hsL
  set sR : ClientState :=
    { s with
        isInterrupted := true
        pendingTurnComplete := false
        avatar := AvatarState.idle
        pendingTimers := [] ++
          [⟨s.nextTimerId, 150, TimerAction.clearInterrupt⟩]
        nextTimerId := s.nextTimerId + 1
        interruptTimeout := some s.nextTimerId } with hsR
  have hmic := micRun_cooldown frames sL hws rfl
  rw [hmic]
  set sL2 : ClientState :=
    { sL with audioBufferDuringCooldown :=
        sL.audioBufferDuringCooldown ++ frames } with hsL2
  have hfireL : fireTimer s.nextTimerId sL2 =
      endCooldownPeriod { sL2 with pendingTimers := [] } := by
    simp [fireTimer, hsL2, hsL, List.find?, clearTimeout, List.filter,
      bne_self_eq_false]
  have hflushL := endCooldown_flush { sL2 with pendingTimers := [] } hws
  have havL : (endCooldownPeriod
      { sL2 with pendingTimers := [] }).1.avatar
      = AvatarState.listening :=
    endCooldownPeriod_avatar _ (by simp [hsL2, hsL, hv])
  have hfireR : fireTimer s.nextTimerId sR =
      clearInterruptState { sR with pendingTimers := [] } := by
    simp [fireTimer, hsR, List.find?, clearTimeout, List.filter,
      bne_self_eq_false]
  have hclearR := clearInterruptState_spec
    { sR with pendingTimers := [] } (by simp [hsR, hv])
  refine ⟨rfl, rfl, rfl, by simp [hsL], ?_, ?_, ?_, rfl, hcd,
    by simp [hsR], ?_, ?_, ?_⟩
  · rw [hfireL]
    have := hflushL.1
    simpa [hsL2, hsL] using this
  · rw [hfireL]; exact havL
  · rw [hfireL]; exact hflushL.2.2.1
  · rw [hfireR]; exact hclearR.1
  · rw [hfireR]; exact hclearR.2.1
  · rw [hfireR]; exact hclearR.2.2.1

/-- C3 witness: the amended behavior at the concrete speaking state
`demoSpeaking`, barge-in time `1000`, cooldown capture `[21, 22]`. -/
theorem interrupt_transition_witness :
    initClient.interruptCooldownMs = 2000 ∧
    (handleLocalBargeIn 1000 demoSpeaking).1.isInterrupted = true ∧
    (handleLocalBargeIn 1000 demoSpeaking).1.isInCooldown = true ∧
    (handleLocalBargeIn 1000 demoSpeaking).1.pendingTimers =
      [⟨0, 2000, TimerAction.endCooldown⟩] ∧
    sentAudio (fireTimer 0
        (micRun [21, 22]
          (handleLocalBargeIn 1000 demoSpeaking).1).1).2 = [21, 22] ∧
    (fireTimer 0
        (micRun [21, 22]
          (handleLocalBargeIn 1000 demoSpeaking).1).1).1.avatar
        = AvatarState.listening ∧
    (fireTimer 0
        (micRun [21, 22]
          (handleLocalBargeIn 1000 demoSpeaking).1).1).1.isInCooldown
        = false ∧
    (handleRemoteInterrupted demoSpeaking).1.isInterrupted = true ∧
    (handleRemoteInterrupted demoSpeaking).1.isInCooldown = false ∧
    (handleRemoteInterrupted demoSpeaking).1.pendingTimers =
      [⟨0, 150, TimerAction.clearInterrupt⟩] ∧
    sentAudio (fireTimer 0
        (handleRemoteInterrupted demoSpeaking).1).2 = [] ∧
    (fireTimer 0 (handleRemoteInterrupted demoSpeaking).1).1.avatar
        = AvatarState.listening ∧
    (fireTimer 0
        (handleRemoteInterrupted
          demoSpeaking).1).1.audioBufferDuringCooldown = [] :=
  interrupt_transition_behavior 1000 demoSpeaking [21, 22]
    rfl rfl rfl rfl rfl rfl

/-! ## Claim C9 — CooldownBuffering only together with Interrupted -/

theorem clearStoredTimeout_flags (s : ClientState) :
    (clearStoredTimeout s).isInCooldown = s.isInCooldown ∧
    (clearStoredTimeout s).isInterrupted = s.isInterrupted ∧
    (clearStoredTimeout s).avatar = s.avatar ∧
    (clearStoredTimeout s).pendingTurnComplete = s.pendingTurnComplete ∧
    (clearStoredTimeout s).videoReady = s.videoReady ∧
    (clearStoredTimeout s).wsOpen = s.wsOpen ∧
    (clearStoredTimeout s).interruptTimeout = s.interruptTimeout := by
  cases h : s.interruptTimeout <;> simp [clearStoredTimeout, clearTimeout, h]

/-- The cooldown-implies-interrupted invariant. -/
def CooldownInv (s : ClientState) : Prop :=
  s.isInCooldown = true → s.isInterrupted = true

theorem cleanup_resets (s : ClientState) :
    (cleanup s).1.isInCooldown = false ∧
    (cleanup s).1.isInterrupted = false := by
  simp [cleanup, setAvatarState_flags]

theorem endCooldownPeriod_resets (s : ClientState) :
    (endCooldownPeriod s).1.isInCooldown = false ∧
    (endCooldownPeriod s).1.isInterrupted = false := by
  simp only [endCooldownPeriod]
  split_ifs <;> simp [setAvatarState_flags]

theorem clearInterruptState_resets (s : ClientState) :
    (clearInterruptState s).1.isInCooldown = false ∧
    (clearInterruptState s).1.isInterrupted = false := by
  simp [clearInterruptState]

theorem handleLocalBargeIn_inv (now : Nat) (s : ClientState)
    (h : CooldownInv s) : CooldownInv (handleLocalBargeIn now s).1 := by
  by_cases hcd : s.isInCooldown = true
  · have hflags :
        (handleLocalBargeIn now s).1.isInCooldown = s.isInCooldown ∧
        (handleLocalBargeIn now s).1.isInterrupted = s.isInterrupted := by
      simp [handleLocalBargeIn, hcd, setTimeout, clearStoredTimeout_flags]
    intro hc
    rw [hflags.2]
    exact h (by rw [← hflags.1]; exact hc)
  · have hflags :
        (handleLocalBargeIn now s).1.isInCooldown = true ∧
        (handleLocalBargeIn now s).1.isInterrupted = true := by
      simp only [Bool.not_eq_true] at hcd
      simp [handleLocalBargeIn, hcd, setTimeout, clearStoredTimeout_flags,
        setAvatarState_flags]
    intro _
    exact hflags.2

theorem handleRemoteInterrupted_inv (s : ClientState)
    (h : CooldownInv s) : CooldownInv (handleRemoteInterrupted s).1 := by
  by_cases hcd : s.isInCooldown = true
  · simpa [handleRemoteInterrupted, hcd] using h
  · simp only [Bool.not_eq_true] at hcd
    have hflags :
        (handleRemoteInterrupted s).1.isInCooldown = s.isInCooldown ∧
        (handleRemoteInterrupted s).1.isInterrupted = true := by
      simp [handleRemoteInterrupted, hcd, setTimeout,
        clearStoredTimeout_flags, setAvatarState_flags]
    intro _
    exact hflags.2

theorem fireTimer_inv (i : Nat) (s : ClientState) (h : CooldownInv s) :
    CooldownInv (fireTimer i s).1 := by
  unfold fireTimer
  cases hf : s.pendingTimers.find? (fun t => t.id == i) with
  | none => exact h
  | some t =>
      cases hact : t.action with
      | endCooldown =>
          simp only [hact]
          intro hc
          have := (endCooldownPeriod_resets (clearTimeout i s)).1
          rw [this] at hc
          exact absurd hc (by simp)
      | clearInterrupt =>
          simp only [hact]
          intro hc
          have := (clearInterruptState_resets (clearTimeout i s)).1
          rw [this] at hc
          exact absurd hc (by simp)

theorem handleAudioMessage_flags (s : ClientState) :
    (handleAudioMessage s).1.isInCooldown = s.isInCooldown ∧
    (handleAudioMessage s).1.isInterrupted = s.isInterrupted := by
  by_cases hd : s.isDancing = true
  · simp [handleAudioMessage, hd]
  · by_cases hi : s.isInterrupted = true <;>
      simp_all [handleAudioMessage, clearStoredTimeout_flags,
        setAvatarState_flags]

theorem handleTurnComplete_flags (s : ClientState) :
    (handleTurnComplete s).1.isInCooldown = s.isInCooldown ∧
    (handleTurnComplete s).1.isInterrupted = s.isInterrupted := by
  by_cases hq : 0 < s.playerQueue <;>
    simp [handleTurnComplete, hq, setAvatarState_flags]

theorem handleDrained_flags (s : ClientState) :
    (handleDrained s).1.isInCooldown = s.isInCooldown ∧
    (handleDrained s).1.isInterrupted = s.isInterrupted := by
  by_cases hp : s.pendingTurnComplete = true <;>
    simp [handleDrained, onAllAudioEnded, hp, setAvatarState_flags]

theorem onData_flags (f : Nat) (s : ClientState) :
    (onData f s).1.isInCooldown = s.isInCooldown ∧
    (onData f s).1.isInterrupted = s.isInterrupted := by
  by_cases hw : s.wsOpen = true
  · by_cases hc : s.isInCooldown = true <;> simp [onData, hw, hc]
  · simp_all [onData]

/-- Every single operation preserves the cooldown-implies-interrupted
invariant. -/
theorem step_preserves_cooldownInv (op : Op) (s : ClientState)
    (h : CooldownInv s) : CooldownInv (step op s) := by
  cases op with
  | wsOpened => simpa [step, stepE, CooldownInv] using h
  | wsClosed =>
      show CooldownInv (cleanup s).1
      intro hc
      rw [(cleanup_resets s).1] at hc
      exact absurd hc (by simp)
  | configLoaded => simpa [step, stepE, CooldownInv] using h
  | localBargeIn now => exact handleLocalBargeIn_inv now s h
  | remoteInterrupted => exact handleRemoteInterrupted_inv s h
  | micData f =>
      show CooldownInv (onData f s).1
      intro hc
      rw [(onData_flags f s).2]
      exact h (by rw [← (onData_flags f s).1]; exact hc)
  | audioMessage =>
      show CooldownInv (handleAudioMessage s).1
      intro hc
      rw [(handleAudioMessage_flags s).2]
      exact h (by rw [← (handleAudioMessage_flags s).1]; exact hc)
  | turnComplete =>
      show CooldownInv (handleTurnComplete s).1
      intro hc
      rw [(handleTurnComplete_flags s).2]
      exact h (by rw [← (handleTurnComplete_flags s).1]; exact hc)
  | drained =>
      show CooldownInv (handleDrained s).1
      intro hc
      rw [(handleDrained_flags s).2]
      exact h (by rw [← (handleDrained_flags s).1]; exact hc)
  | timerExpired i => exact fireTimer_inv i s h
  | sessionCleanup =>
      show CooldownInv (cleanup s).1
      intro hc
      rw [(cleanup_resets s).1] at hc
      exact absurd hc (by simp)

theorem run_preserves_cooldownInv (ops : List Op) (s : ClientState)
    (h : CooldownInv s) : CooldownInv (run ops s) := by
  induction ops generalizing s with
  | nil => exact h
  | cons op ops ih => exact ih (step op s) (step_preserves_cooldownInv op s h)

/-- C9: in every state reachable from the initial client state by any
sequence of operations (local barge-in, remote interrupt, microphone and
playback events, timer expiries, cleanup, connection lifecycle), being in
`CooldownBuffering` implies the interrupted flag is set: the cooldown
flag is never set without the interrupted flag. -/
theorem cooldown_implies_interrupted (ops : List Op) :
    (run ops initClient).isInCooldown = true →
    (run ops initClient).isInterrupted = true :=
  run_preserves_cooldownInv ops initClient (fun hc => by
    exact absurd hc (by simp [initClient]))

/-- C9 witness: after connecting, loading the config and a local
barge-in, the client is in cooldown — and the theorem yields that it is
also interrupted. -/
theorem cooldown_implies_interrupted_witness :
    (run [Op.wsOpened, Op.configLoaded, Op.localBargeIn 7]
        initClient).isInterrupted = true :=
  cooldown_implies_interrupted
    [Op.wsOpened, Op.configLoaded, Op.localBargeIn 7] (by decide)

/-! ## Claim C7 — drain with no interrupt reaches Listening exactly once -/

theorem toListeningChanges_append (a b : List Effect) :
    toListeningChanges (a ++ b) =
      toListeningChanges a ++ toListeningChanges b := by
  simp [toListeningChanges]

/-- The first inbound audio frame of a turn, arriving while listening:
the avatar switches to speaking (one transition, not into listening), the
chunk is enqueued, and the pending turn-complete flag is cleared. -/
theorem handleAudioMessage_start (s : ClientState)
    (hd : s.isDancing = false) (hi : s.isInterrupted = false)
    (hv : s.videoReady = true) (hl : s.avatar = AvatarState.listening) :
    (handleAudioMessage s).2 =
      [Effect.avatarChange AvatarState.listening AvatarState.speaking] ∧
    (handleAudioMessage s).1.avatar = AvatarState.speaking ∧
    (handleAudioMessage s).1.isDancing = false ∧
    (handleAudioMessage s).1.isInterrupted = false ∧
    (handleAudioMessage s).1.videoReady = true ∧
    (handleAudioMessage s).1.hasAudioRecorder = s.hasAudioRecorder ∧
    (handleAudioMessage s).1.pendingTurnComplete = false ∧
    (handleAudioMessage s).1.playerQueue = s.playerQueue + 1 := by
  cases hit : s.interruptTimeout <;>
    simp [handleAudioMessage, hd, hi, hv, hl, hit, clearStoredTimeout,
      clearTimeout, setAvatarState]

/-- A further inbound audio frame while already speaking: no avatar
transition, no effects, one more chunk enqueued. -/
theorem handleAudioMessage_speaking (s : ClientState)
    (hd : s.isDancing = false) (hi : s.isInterrupted = false)
    (hsp : s.avatar = AvatarState.speaking) :
    (handleAudioMessage s).2 = [] ∧
    (handleAudioMessage s).1.avatar = AvatarState.speaking ∧
    (handleAudioMessage s).1.isDancing = false ∧
    (handleAudioMessage s).1.isInterrupted = false ∧
    (handleAudioMessage s).1.videoReady = s.videoReady ∧
    (handleAudioMessage s).1.hasAudioRecorder = s.hasAudioRecorder ∧
    (handleAudioMessage s).1.pendingTurnComplete = false ∧
    (handleAudioMessage s).1.playerQueue = s.playerQueue + 1 := by
  cases hit : s.interruptTimeout <;> by_cases hv : s.videoReady = true <;>
    simp [handleAudioMessage, hd, hi, hsp, hit, hv, clearStoredTimeout,
      clearTimeout, setAvatarState]

/-- Any number of further audio frames while speaking: no effects at all,
the queue grows by the number of frames, everything else as before. -/
theorem audioRun_speaking (m : ℕ) (s : ClientState)
    (hd : s.isDancing = false) (hi : s.isInterrupted = false)
    (hsp : s.avatar = AvatarState.speaking) :
    (runE (List.replicate m Op.audioMessage) s).2 = [] ∧
    (runE (List.replicate m Op.audioMessage) s).1.avatar
        = AvatarState.speaking ∧
    (runE (List.replicate m Op.audioMessage) s).1.isDancing = false ∧
    (runE (List.replicate m Op.audioMessage) s).1.isInterrupted = false ∧
    (runE (List.replicate m Op.audioMessage) s).1.videoReady
        = s.videoReady ∧
    (runE (List.replicate m Op.audioMessage) s).1.hasAudioRecorder
        = s.hasAudioRecorder ∧
    (runE (List.replicate m Op.audioMessage) s).1.pendingTurnComplete
        = (if m = 0 then s.pendingTurnComplete else false) ∧
    (runE (List.replicate m Op.audioMessage) s).1.playerQueue
        = s.playerQueue + m := by
  induction m generalizing s with
  | zero => simp [runE, hsp, hd, hi]
  | succ m ih =>
      rw [List.replicate_succ]
      have h1 := handleAudioMessage_speaking s hd hi hsp
      have h2 := ih (handleAudioMessage s).1 h1.2.2.1 h1.2.2.2.1 h1.2.1
      have hstep : stepE Op.audioMessage s = handleAudioMessage s := rfl
      simp only [runE, hstep]
      refine ⟨?_, h2.2.1, h2.2.2.1, h2.2.2.2.1, ?_, ?_, ?_, ?_⟩
      · rw [h1.1, h2.1]; rfl
      · rw [h2.2.2.2.2.1, h1.2.2.2.2.1]
      · rw [h2.2.2.2.2.2.1, h1.2.2.2.2.2.1]
      · rw [h2.2.2.2.2.2.2.1]
        by_cases hm : m = 0 <;> simp [hm, h1.2.2.2.2.2.2.1]
      · rw [h2.2.2.2.2.2.2.2, h1.2.2.2.2.2.2.2]
        omega

/-- Handling of `turn_complete` with audio still queued: records only the pending
flag (and pauses the talking video). -/
theorem handleTurnComplete_queued (s : ClientState)
    (hq : 0 < s.playerQueue) :
    handleTurnComplete s =
      ({ s with pendingTurnComplete := true },
       if s.avatar = AvatarState.speaking then [Effect.pauseVideo]
       else []) := by
  simp [handleTurnComplete, hq]

/-- The drain notification with a pending turn-complete: the avatar
finally transitions speaking → listening, exactly once. -/
theorem handleDrained_pending (s : ClientState)
    (hpt : s.pendingTurnComplete = true)
    (hsp : s.avatar = AvatarState.speaking) (hv : s.videoReady = true) :
    (handleDrained s).1.avatar = AvatarState.listening ∧
    toListeningChanges (handleDrained s).2 =
      [Effect.avatarChange AvatarState.speaking AvatarState.listening] := by
  by_cases hr : s.hasAudioRecorder = true <;>
    simp [handleDrained, onAllAudioEnded, hpt, hsp, hv, hr,
      setAvatarState, toListeningChanges, List.filter]

/-- Splitting a run of operations at a list append. -/
theorem runE_append (l1 l2 : List Op) (s : ClientState) :
    runE (l1 ++ l2) s =
      ((runE l2 (runE l1 s).1).1,
       (runE l1 s).2 ++ (runE l2 (runE l1 s).1).2) := by
  induction l1 generalizing s with
  | nil => simp [runE]
  | cons op ops ih => simp [runE, ih, List.append_assoc]

/-- C7: a turn of `n ≥ 1` inbound audio frames with no interrupt,
followed by `turn_complete` (while audio is still queued) and then the
playback-sink drain notification: the orchestrator ends in Listening,
and over the whole turn exactly one avatar transition into Listening
occurs — the final Speaking → Listening one. -/
theorem turn_drain_reaches_listening_once (n : ℕ) (s : ClientState)
    (hn : 1 ≤ n) (hd : s.isDancing = false)
    (hi : s.isInterrupted = false) (hv : s.videoReady = true)
    (hl : s.avatar = AvatarState.listening)
    (_hpt : s.pendingTurnComplete = false) :
    (runE (List.replicate n Op.audioMessage ++
        [Op.turnComplete, Op.drained]) s).1.avatar
        = AvatarState.listening ∧
    toListeningChanges (runE (List.replicate n Op.audioMessage ++
        [Op.turnComplete, Op.drained]) s).2 =
      [Effect.avatarChange AvatarState.speaking AvatarState.listening] := by
  obtain ⟨m, rfl⟩ : ∃ m, n = m + 1 :=
    ⟨n - 1, (Nat.succ_pred_eq_of_pos hn).symm⟩
  rw [List.replicate_succ, List.cons_append]
  have h1 := handleAudioMessage_start s hd hi hv hl
  have h2 := audioRun_speaking m (handleAudioMessage s).1 h1.2.2.1
    h1.2.2.2.1 h1.2.1
  have hcons : runE (Op.audioMessage ::
      (List.replicate m Op.audioMessage ++
        [Op.turnComplete, Op.drained])) s =
      ((runE (List.replicate m Op.audioMessage ++
          [Op.turnComplete, Op.drained]) (handleAudioMessage s).1).1,
       (handleAudioMessage s).2 ++
        (runE (List.replicate m Op.audioMessage ++
          [Op.turnComplete, Op.drained]) (handleAudioMessage s).1).2) := rfl
  have hra := runE_append (List.replicate m Op.audioMessage)
    [Op.turnComplete, Op.drained] (handleAudioMessage s).1
  set S2 : ClientState :=
    (runE (List.replicate m Op.audioMessage) (handleAudioMessage s).1).1
    with hS2
  have hq2 : 0 < S2.playerQueue := by
    rw [h2.2.2.2.2.2.2.2, h1.2.2.2.2.2.2.2]
    omega
  have hsp2 : S2.avatar = AvatarState.speaking := h2.2.1
  have hv2 : S2.videoReady = true := by
    rw [h2.2.2.2.2.1, h1.2.2.2.2.1]
  have htc := handleTurnComplete_queued S2 hq2
  have htd : runE [Op.turnComplete, Op.drained] S2 =
      ((handleDrained (handleTurnComplete S2).1).1,
       (handleTurnComplete S2).2 ++
        ((handleDrained (handleTurnComplete S2).1).2 ++ [])) := rfl
  have hdr := handleDrained_pending
    { S2 with pendingTurnComplete := true } rfl hsp2 hv2
  have htc1 : (handleTurnComplete S2).1 =
      { S2 with pendingTurnComplete := true } := by rw [htc]
  have htc2 : (handleTurnComplete S2).2 =
      (if S2.avatar = AvatarState.speaking then [Effect.pauseVideo]
       else []) := by rw [htc]
  rw [hcons, hra, htd, htc1, htc2]
  constructor
  · exact hdr.1
  · rw [h1.1, h2.1]
    simp only [toListeningChanges_append, List.nil_append,
      List.append_nil]
    rw [show toListeningChanges
        [Effect.avatarChange AvatarState.listening AvatarState.speaking]
        = [] from rfl]
    rw [show toListeningChanges
        (if S2.avatar = AvatarState.speaking then [Effect.pauseVideo]
         else []) = [] from by split_ifs <;> rfl]
    simp only [List.nil_append]
    exact hdr.2

/-- C7 witness: one audio frame, then `turn_complete` with the chunk
still queued, then the drain notification, from the concrete connected
listening state `demoBase`. -/
theorem turn_drain_witness :
    (runE (List.replicate 1 Op.audioMessage ++
        [Op.turnComplete, Op.drained]) demoBase).1.avatar
        = AvatarState.listening ∧
    toListeningChanges (runE (List.replicate 1 Op.audioMessage ++
        [Op.turnComplete, Op.drained]) demoBase).2 =
      [Effect.avatarChange AvatarState.speaking AvatarState.listening] :=
  turn_drain_reaches_listening_once 1 demoBase (by norm_num)
    rfl rfl rfl rfl rfl

end AvatarCloud
